import Mathlib

/-!
Verification of the dynamic-risk-assessment pipeline (ingestion, drift
detection, deployment) against its design specification.

The Lean definitions below are a shallow embedding of the Python sources:

  * ingestion.py     : merge_multiple_data_sources
  * fullprocess.py   : check_new_data, check_model_drift, main
  * scoring.py       : score_model
  * training.py      : train_model
  * deployment.py    : store_inference_pipe_artifacts

Files on disk are modelled explicitly: a CSV file is either a parsed
dataframe (pd.read_csv succeeds) or corrupt (pd.read_csv raises); the
ingestion ledger ingestedfiles.txt is a list of text lines; the score
record latestscore.txt is either a well-formed line, as written by
score_model, or malformed content on which the split-and-float parse of
fullprocess.py raises ValueError.  Machine floats are abstracted as
rationals; CSV cells of the fixed numeric schema are rationals.  The
fitted LogisticRegression predictor is an opaque function (the spec treats
training and prediction as black-box capabilities, section 1).
-/

deriving instance DecidableEq for Except

namespace RiskPipeline

abbrev FileName := String

/-- A data row: the cells of one CSV line under the fixed numeric schema. -/
abbrev Row := List ℚ

/-- A parsed pandas dataframe: named columns and data rows. -/
structure DataFrame where
  header : List String
  rows : List Row
deriving DecidableEq

/-- Content of a candidate file: it either parses into a dataframe or
pd.read_csv raises on it (ingestion.py line 54 versus line 74). -/
inductive FileContent
  | table (df : DataFrame)
  | corrupt
deriving DecidableEq

/-- The input folder: an association list from file names to contents.
Path.exists corresponds to a successful lookup. -/
abbrev Folder := List (FileName × FileContent)

/-- Python pathlib suffix of a file name: the substring from the last dot
onward, provided that dot is neither the first nor the last character;
otherwise the empty string. -/
def pathSuffix (name : String) : String :=
  let cs := name.data
  let tail := (cs.reverse.takeWhile (fun c => c ≠ '.')).reverse
  if tail.length + 1 < cs.length ∧ 0 < tail.length then String.mk ('.' :: tail) else ""

/-- The suffix test applied throughout the sources
(file_path.suffix == ".csv"). -/
def isCsvFile (name : FileName) : Bool := pathSuffix name == ".csv"

/-- The csv-typed file names of a folder, as listed by
ingestion.py line 46 and fullprocess.py lines 64 and 72. -/
def csvNames (folder : Folder) : List FileName :=
  (folder.filter (fun p => isCsvFile p.1)).map Prod.fst

/-- One record of the ingestion ledger, ingestion.py lines 63 to 70. -/
structure LedgerEntry where
  ingestTime : String
  file : FileName
  sourceLocation : String
  rowCount : ℕ
deriving DecidableEq

/-- The text line written for a ledger entry, ingestion.py lines 98 to 101. -/
def ledgerLine (e : LedgerEntry) : String :=
  e.ingestTime ++ ", " ++ e.file ++ ", " ++ e.sourceLocation ++ ", " ++ toString e.rowCount

/-- Logging levels used by the sources. -/
inductive LogLevel
  | info
  | warning
  | error
deriving DecidableEq

/-- One emitted log record. -/
structure LogEvent where
  level : LogLevel
  message : String
deriving DecidableEq

/-- Warning text of ingestion.py line 77. -/
def missingMsg (name : FileName) : String :=
  "File " ++ name ++ " does not exist or is not a CSV file."

/-- Error text of ingestion.py line 75. -/
def readErrorMsg (name : FileName) : String :=
  "Error reading file " ++ name

/-- Content of latestscore.txt when the file exists: either the shape
written by scoring.py line 94 (a timestamp, a comma-space separator and a
parseable numeral), or any other content, on which the split-and-float
parse of fullprocess.py lines 92 to 96 raises ValueError. -/
inductive ScoreContent
  | record (time : String) (score : ℚ)
  | malformed (content : String)
deriving DecidableEq

/-- A fitted classifier: an opaque prediction function from a feature
vector to a label.  Training and prediction are black-box capabilities of
sklearn; the pipeline only stores, copies and applies the artifact. -/
def Model := List ℚ → ℚ

/-- The model output directory (output_model_path): the staging slot
holding trainedmodel.pkl and latestscore.txt. -/
structure ModelSlot where
  model : Option Model
  score : Option ScoreContent

/-- The deployment directory (deployment_path): holds copies of
trainedmodel.pkl, latestscore.txt and ingestedfiles.txt. -/
structure DeploySlot where
  model : Option Model
  score : Option ScoreContent
  ledgerLines : Option (List String)

/-- The whole persistent state the pipeline reads and writes: the input
folder, the output folder files finaldata.csv and ingestedfiles.txt, the
staging model slot and the deployment slot.  An Option none field stands
for an absent file. -/
structure PipeState where
  inputFolder : Folder
  finaldata : Option DataFrame
  ledgerLines : Option (List String)
  outputModel : ModelSlot
  deployed : DeploySlot

/-- Errors raised by the embedded functions, mirroring the Python
exception types that escape them. -/
inductive PipeError
  | indexError
  | valueError (content : String)
  | fileNotFound (what : String)
  | keyError (what : String)
deriving DecidableEq

/-! ## Ingestion (ingestion.py) -/

/-- Accumulators of the per-file loop of merge_multiple_data_sources:
df_list, log_list and the emitted log events. -/
structure FileScan where
  dfList : List DataFrame
  logList : List LedgerEntry
  events : List LogEvent

/-- The per-file loop of ingestion.py lines 49 to 77: for each candidate
name, if the file exists and has the .csv suffix, try to parse it; a
parsed file contributes its dataframe and a ledger record, a file that
fails to parse logs an error, and a missing or non-csv file logs a
warning. -/
def scanFiles (folder : Folder) (now srcLoc : String) : List FileName → FileScan
  | [] => { dfList := [], logList := [], events := [] }
  | name :: rest =>
    let r := scanFiles folder now srcLoc rest
    match folder.lookup name with
    | some content =>
      if isCsvFile name then
        match content with
        | .table df =>
          { dfList := df :: r.dfList
            logList := { ingestTime := now, file := name,
                         sourceLocation := srcLoc,
                         rowCount := df.rows.length } :: r.logList
            events := { level := .info,
                        message := "File to ingest: " ++ name } :: r.events }
        | .corrupt =>
          { r with events := { level := .error,
                               message := readErrorMsg name } :: r.events }
      else
        { r with events := { level := .warning,
                             message := missingMsg name } :: r.events }
    | none =>
      { r with events := { level := .warning,
                           message := missingMsg name } :: r.events }

/-- Concatenation of the accumulated dataframes, pd.concat of
ingestion.py line 82.  All candidate files share the fixed schema of the
spec (section 3), so concatenation is row concatenation under the header
of the first frame. -/
def concatFrames (dfs : List DataFrame) : DataFrame :=
  { header := (dfs.headD { header := [], rows := [] }).header
    rows := (dfs.map DataFrame.rows).flatten }

/-- Helper of dropDuplicates: keeps the first occurrence of each row,
dropping rows already seen. -/
def dropDupAux (seen : List Row) : List Row → List Row
  | [] => []
  | r :: rs =>
    if r ∈ seen then dropDupAux seen rs
    else r :: dropDupAux (r :: seen) rs

/-- pandas drop_duplicates on rows: keeps the first occurrence of each
row, comparing rows by exact equality (ingestion.py line 82). -/
def dropDuplicates (rows : List Row) : List Row := dropDupAux [] rows

/-- merge_multiple_data_sources, ingestion.py lines 29 to 106.

When filesToIngest is none, every csv-typed file of the input folder is
taken (line 46).  The per-file loop accumulates parsed frames and ledger
records.  If at least one frame was accumulated, the frames are
concatenated, deduplicated by exact row equality, and written over
finaldata.csv, after which one ledger line per parsed file is appended to
ingestedfiles.txt (opened with mode a+, which creates it when absent).
If no frame was accumulated the state is untouched and a warning is
logged.

The writeOk flag injects the outcome of the to_csv write of line 91:
writeOk = false is the path in which that write raises, so control jumps
to the except handler of line 103 and the ledger append never runs.  Only
the ledgerLines component of the failure result is meaningful; the
on-disk finaldata content after a failed write is unspecified. -/
def merge_multiple_data_sources (st : PipeState) (filesToIngest : Option (List FileName))
    (now srcLoc : String) (writeOk : Bool) : PipeState × List LogEvent :=
  let files := match filesToIngest with
    | some fs => fs
    | none => csvNames st.inputFolder
  let r := scanFiles st.inputFolder now srcLoc files
  if r.dfList.isEmpty then
    (st, r.events ++ [{ level := .warning,
                        message := "No files were ingested. Dataframe list is empty." }])
  else if writeOk then
    let ingestDf := { header := (concatFrames r.dfList).header
                      rows := dropDuplicates (concatFrames r.dfList).rows }
    ({ st with
        finaldata := some ingestDf
        ledgerLines := some (st.ledgerLines.getD [] ++ r.logList.map ledgerLine) },
     r.events ++ [{ level := .info, message := "Saved final data version to finaldata.csv" }])
  else
    (st, r.events ++ [{ level := .error, message := "Error during merging or saving" }])

/-! ## New-data discovery (fullprocess.py, check_new_data) -/

/-- Python str.split with the two-character separator comma-space:
non-overlapping leftmost-first splitting. -/
def splitCommaSpace : List Char → List (List Char)
  | [] => [[]]
  | ',' :: ' ' :: rest => [] :: splitCommaSpace rest
  | c :: rest =>
    match splitCommaSpace rest with
    | [] => [[c]]
    | f :: fs => (c :: f) :: fs

/-- String form of splitCommaSpace, the line.split of
fullprocess.py line 69. -/
def pySplitCommaSpace (s : String) : List String :=
  (splitCommaSpace s.data).map (fun cs => String.mk cs)

/-- Python str.strip whitespace test. -/
def isPyWhitespace (c : Char) : Bool :=
  c == ' ' || c == '\t' || c == '\n' || c == '\r' || c == '\x0b' || c == '\x0c'

/-- Python str.strip: removes leading and trailing whitespace. -/
def pyStrip (s : String) : String :=
  String.mk (((s.data.dropWhile isPyWhitespace).reverse.dropWhile isPyWhitespace).reverse)

/-- The file-name field extracted from one ledger line,
fullprocess.py line 69: the element at index 1 of the split, stripped.
A line with no comma-space separator makes the Python indexing raise
IndexError, modelled as none. -/
def ledgerLineName (line : String) : Option String :=
  ((pySplitCommaSpace line).drop 1).head?.map pyStrip

/-- check_new_data, fullprocess.py lines 53 to 75: when no ledger file
exists every csv-typed file of the input folder is new; otherwise the
result is the csv-typed names of the input folder minus the names
recorded in the ledger (a set difference by name only). -/
def check_new_data (st : PipeState) : Except PipeError (List FileName) :=
  match st.ledgerLines with
  | none => .ok (csvNames st.inputFolder)
  | some lines =>
    match lines.mapM ledgerLineName with
    | none => .error .indexError
    | some ingested =>
      .ok ((csvNames st.inputFolder).filter (fun n => !(ingested.contains n)))

/-! ## Scoring (scoring.py) -/

/-- The hardcoded feature columns of scoring.py line 73 and
training.py line 46. -/
def featureCols : List String :=
  ["lastmonth_activity", "lastyear_activity", "number_of_employees"]

/-- The hardcoded target column of scoring.py line 74. -/
def targetCol : String := "exited"

/-- Index of a named column in a header. -/
def colIndex (header : List String) (c : String) : Option ℕ :=
  header.findIdx? (fun h => h == c)

/-- Column extraction df with the feature list, scoring.py line 78: the
feature cells of every row, or none when a feature column is missing
(the KeyError path).  Rows are assumed to match the header width, the
fixed schema of the spec. -/
def extractX (df : DataFrame) : Option (List (List ℚ)) :=
  (featureCols.mapM (colIndex df.header)).map
    (fun idxs => df.rows.map (fun r => idxs.map (fun i => r.getD i 0)))

/-- Target extraction, scoring.py line 79: the exited cell of every row,
or none when the column is missing. -/
def extractY (df : DataFrame) : Option (List ℚ) :=
  (colIndex df.header targetCol).map (fun i => df.rows.map (fun r => r.getD i 0))

/-- sklearn binary f1_score with positive label 1: the harmonic mean of
precision and recall, 0 when the denominator vanishes (the sklearn
zero-division default). -/
def f1_score (y yPred : List ℚ) : ℚ :=
  let pairs := y.zip yPred
  let tp := (pairs.filter (fun p => p.1 == 1 && p.2 == 1)).length
  let fp := (pairs.filter (fun p => p.1 != 1 && p.2 == 1)).length
  let falseNeg := (pairs.filter (fun p => p.1 == 1 && p.2 != 1)).length
  if 2 * tp + fp + falseNeg = 0 then 0
  else (2 * tp : ℚ) / (2 * tp + fp + falseNeg)

/-- score_model, scoring.py lines 30 to 97: loads the model of the given
slot (FileNotFoundError when absent), loads the test data
(FileNotFoundError when absent), extracts features and target (KeyError
when a column is missing), computes the F1 score of the predictions, and
returns it together with the new latestscore.txt content that line 92
writes into the same slot with mode w, overwriting any prior record. -/
def score_model (model? : Option Model) (testData? : Option DataFrame) (now : String) :
    Except PipeError (ℚ × ScoreContent) :=
  match model? with
  | none => .error (.fileNotFound "trainedmodel.pkl")
  | some m =>
    match testData? with
    | none => .error (.fileNotFound "test data")
    | some df =>
      match extractX df, extractY df with
      | some xs, some y =>
        let f1 := f1_score y (xs.map m)
        .ok (f1, ScoreContent.record now f1)
      | _, _ => .error (.keyError "missing required columns")

/-! ## Drift detection (fullprocess.py, check_model_drift) -/

/-- Step 1 of check_model_drift, fullprocess.py lines 86 to 99: an absent
latestscore.txt yields no baseline, a well-formed record yields its
score, malformed content raises ValueError. -/
def readDeployedScore : Option ScoreContent → Except PipeError (Option ℚ)
  | none => .ok none
  | some (.record _ s) => .ok (some s)
  | some (.malformed c) => .error (.valueError c)

/-- check_model_drift, fullprocess.py lines 78 to 116: read the deployed
score record, re-score the deployed model on finaldata.csv (score_model
with model_path = deployment_path, so the fresh record is written into
the deployment slot), and declare drift exactly when a baseline exists
and the new score is strictly below it. -/
def check_model_drift (st : PipeState) (now : String) :
    Except PipeError (Bool × PipeState) :=
  match readDeployedScore st.deployed.score with
  | .error e => .error e
  | .ok deployedScore? =>
    match score_model st.deployed.model st.finaldata now with
    | .error e => .error e
    | .ok (newScore, freshRecord) =>
      let st1 := { st with deployed := { st.deployed with score := some freshRecord } }
      match deployedScore? with
      | some d => if newScore < d then .ok (true, st1) else .ok (false, st1)
      | none => .ok (false, st1)

/-! ## Training (training.py) -/

/-- train_model, training.py lines 29 to 88: requires finaldata.csv
(FileNotFoundError when absent), extracts features and target (KeyError
when a column is missing), fits a LogisticRegression (the black-box
trainer argument) and stores the result as trainedmodel.pkl in the model
output slot. -/
def train_model (st : PipeState) (trainer : List (List ℚ) → List ℚ → Model) :
    Except PipeError PipeState :=
  match st.finaldata with
  | none => .error (.fileNotFound "finaldata.csv")
  | some df =>
    match extractX df, extractY df with
    | some xs, some y =>
      .ok { st with outputModel := { st.outputModel with model := some (trainer xs y) } }
    | _, _ => .error (.keyError "missing required columns")

/-! ## Deployment (deployment.py) -/

/-- Events of the deployment loop: a copy or a missing-source warning. -/
inductive DeployEvent
  | copied (artifact : String)
  | warned (artifact : String)
deriving DecidableEq

/-- store_inference_pipe_artifacts, deployment.py lines 42 to 64: the
loop over the artifact list of lines 47 to 49, unrolled in its order
latestscore.txt, trainedmodel.pkl, ingestedfiles.txt.  Each existing
source artifact is copied into the deployment directory; each missing one
only logs a warning. -/
def store_inference_pipe_artifacts (st : PipeState) : PipeState × List DeployEvent :=
  let step1 : PipeState × DeployEvent :=
    match st.outputModel.score with
    | some sc => ({ st with deployed := { st.deployed with score := some sc } },
                  .copied "latestscore.txt")
    | none => (st, .warned "latestscore.txt")
  let step2 : PipeState × DeployEvent :=
    match step1.1.outputModel.model with
    | some m => ({ step1.1 with deployed := { step1.1.deployed with model := some m } },
                 .copied "trainedmodel.pkl")
    | none => (step1.1, .warned "trainedmodel.pkl")
  let step3 : PipeState × DeployEvent :=
    match step2.1.ledgerLines with
    | some ls => ({ step2.1 with deployed := { step2.1.deployed with ledgerLines := some ls } },
                  .copied "ingestedfiles.txt")
    | none => (step2.1, .warned "ingestedfiles.txt")
  (step3.1, [step1.2, step2.2, step3.2])

/-! ## Orchestrator (fullprocess.py, main) -/

/-- The stages of the pipeline of fullprocess.py main. -/
inductive Stage
  | checkData
  | ingest
  | checkDrift
  | retrain
  | deploy
  | serveApi
  | report
deriving DecidableEq

/-- main, fullprocess.py lines 119 to 172: discover new files (exit when
none), ingest them, check drift (exit when none), retrain, redeploy, run
the serving subprocess and report.  The returned list records the stages
that executed.  The serving and reporting stages are external
collaborators with no effect on the core state.  I/O of the cycle is
taken to succeed (the failure injection lives in
merge_multiple_data_sources). -/
def mainRun (st : PipeState) (trainer : List (List ℚ) → List ℚ → Model)
    (now srcLoc : String) : Except PipeError (List Stage × PipeState) :=
  match check_new_data st with
  | .error e => .error e
  | .ok newFiles =>
    if newFiles.isEmpty then .ok ([Stage.checkData], st)
    else
      let st1 := (merge_multiple_data_sources st (some newFiles) now srcLoc true).1
      match check_model_drift st1 now with
      | .error e => .error e
      | .ok (drift, st2) =>
        if drift then
          match train_model st2 trainer with
          | .error e => .error e
          | .ok st3 =>
            let st4 := (store_inference_pipe_artifacts st3).1
            .ok ([Stage.checkData, Stage.ingest, Stage.checkDrift, Stage.retrain,
                  Stage.deploy, Stage.serveApi, Stage.report], st4)
        else .ok ([Stage.checkData, Stage.ingest, Stage.checkDrift], st2)

/-- Rows of an optional dataframe, the empty list when the file is
absent. -/
def rowsOf : Option DataFrame → List Row
  | none => []
  | some df => df.rows

/-- Modelled from the spec: the canonical dataset that section 4.1
describes as the result of mergeSources, namely the deduplicated
concatenation of the newly parsed frames with the existing canonical
dataset when one is present.  Used only to compare the spec description
with the source behaviour. -/
def specMergedDataset (newFrames : List DataFrame) (existing : Option DataFrame) : DataFrame :=
  { header := (concatFrames newFrames).header
    rows := dropDuplicates ((concatFrames newFrames).rows ++ rowsOf existing) }

/-! ## Helper lemmas -/

theorem mem_dropDupAux (a : Row) (seen : List Row) (l : List Row) :
    a ∈ dropDupAux seen l ↔ a ∈ l ∧ a ∉ seen := by
  induction l generalizing seen with
  | nil => simp [dropDupAux]
  | cons r rs ih =>
    by_cases hr : r ∈ seen
    · simp only [dropDupAux, if_pos hr, ih]
      constructor
      · rintro ⟨h1, h2⟩
        exact ⟨List.mem_cons_of_mem r h1, h2⟩
      · rintro ⟨h1, h2⟩
        rcases List.mem_cons.mp h1 with h | h
        · subst h; exact absurd hr h2
        · exact ⟨h, h2⟩
    · simp only [dropDupAux, if_neg hr]
      constructor
      · intro h
        rcases List.mem_cons.mp h with h | h
        · subst h; simp [hr]
        · rcases (ih (r :: seen)).mp h with ⟨h1, h2⟩
          refine ⟨List.mem_cons_of_mem r h1, fun hc => h2 (List.mem_cons_of_mem r hc)⟩
      · rintro ⟨h1, h2⟩
        rcases List.mem_cons.mp h1 with h | h
        · subst h; exact List.mem_cons_self a _
        · by_cases har : a = r
          · subst har; exact List.mem_cons_self a _
          · exact List.mem_cons_of_mem r
              ((ih (r :: seen)).mpr ⟨h, fun hc => by
                rcases List.mem_cons.mp hc with h3 | h3
                · exact har h3
                · exact h2 h3⟩)

theorem mem_dropDuplicates (a : Row) (l : List Row) :
    a ∈ dropDuplicates l ↔ a ∈ l := by
  simp [dropDuplicates, mem_dropDupAux]

theorem scanFiles_dfList_mem (folder : Folder) (now srcLoc : String)
    (files : List FileName) (name : FileName) (df : DataFrame)
    (hmem : name ∈ files) (hlook : folder.lookup name = some (.table df))
    (hcsv : isCsvFile name = true) :
    df ∈ (scanFiles folder now srcLoc files).dfList := by
  induction files with
  | nil => simp at hmem
  | cons hd tl ih =>
    rcases List.mem_cons.mp hmem with h | h
    · subst h
      simp [scanFiles, hlook, hcsv]
    · have hR := ih h
      simp only [scanFiles]
      cases hl : folder.lookup hd with
      | none => simpa using hR
      | some c =>
        by_cases hc : isCsvFile hd
        · cases c with
          | table d => simp [hc, hR]
          | corrupt => simpa [hc] using hR
        · simpa [hc] using hR

theorem scanFiles_logList_mem (folder : Folder) (now srcLoc : String)
    (files : List FileName) (name : FileName) (df : DataFrame)
    (hmem : name ∈ files) (hlook : folder.lookup name = some (.table df))
    (hcsv : isCsvFile name = true) :
    ({ ingestTime := now, file := name, sourceLocation := srcLoc,
       rowCount := df.rows.length } : LedgerEntry)
      ∈ (scanFiles folder now srcLoc files).logList := by
  induction files with
  | nil => simp at hmem
  | cons hd tl ih =>
    rcases List.mem_cons.mp hmem with h | h
    · subst h
      simp [scanFiles, hlook, hcsv]
    · have hR := ih h
      simp only [scanFiles]
      cases hl : folder.lookup hd with
      | none => simpa using hR
      | some c =>
        by_cases hc : isCsvFile hd
        · cases c with
          | table d => simp [hc, hR]
          | corrupt => simpa [hc] using hR
        · simpa [hc] using hR

theorem scanFiles_logList_sound (folder : Folder) (now srcLoc : String)
    (files : List FileName) (e : LedgerEntry)
    (hmem : e ∈ (scanFiles folder now srcLoc files).logList) :
    ∃ df, folder.lookup e.file = some (.table df) ∧
      e.rowCount = df.rows.length ∧ isCsvFile e.file = true ∧ e.file ∈ files := by
  induction files with
  | nil => simp [scanFiles] at hmem
  | cons hd tl ih =>
    simp only [scanFiles] at hmem
    cases hl : folder.lookup hd with
    | none =>
      rw [hl] at hmem
      simp only at hmem
      rcases ih hmem with ⟨df, h1, h2, h3, h4⟩
      exact ⟨df, h1, h2, h3, List.mem_cons_of_mem hd h4⟩
    | some c =>
      rw [hl] at hmem
      by_cases hc : isCsvFile hd
      · cases c with
        | table d =>
          simp only [hc, if_true] at hmem
          rcases List.mem_cons.mp hmem with h | h
          · subst h
            exact ⟨d, hl, rfl, hc, List.mem_cons_self hd tl⟩
          · rcases ih h with ⟨df, h1, h2, h3, h4⟩
            exact ⟨df, h1, h2, h3, List.mem_cons_of_mem hd h4⟩
        | corrupt =>
          simp only [hc, if_true] at hmem
          rcases ih hmem with ⟨df, h1, h2, h3, h4⟩
          exact ⟨df, h1, h2, h3, List.mem_cons_of_mem hd h4⟩
      · simp only [hc, if_false] at hmem
        rcases ih hmem with ⟨df, h1, h2, h3, h4⟩
        exact ⟨df, h1, h2, h3, List.mem_cons_of_mem hd h4⟩

theorem scanFiles_warning_mem (folder : Folder) (now srcLoc : String)
    (files : List FileName) (name : FileName)
    (hmem : name ∈ files)
    (hskip : folder.lookup name = none ∨ isCsvFile name = false) :
    ({ level := .warning, message := missingMsg name } : LogEvent)
      ∈ (scanFiles folder now srcLoc files).events := by
  induction files with
  | nil => simp at hmem
  | cons hd tl ih =>
    rcases List.mem_cons.mp hmem with h | h
    · subst h
      rcases hskip with hl | hc
      · simp [scanFiles, hl]
      · simp only [scanFiles]
        cases hl : folder.lookup name with
        | none => simp
        | some c => simp [hc]
    · have hR := ih h
      simp only [scanFiles]
      cases hl : folder.lookup hd with
      | none =>
        simp only [hl]
        exact List.mem_cons_of_mem _ hR
      | some c =>
        simp only [hl]
        by_cases hc : isCsvFile hd = true
        · cases c with
          | table d =>
            rw [if_pos hc]
            exact List.mem_cons_of_mem _ hR
          | corrupt =>
            rw [if_pos hc]
            exact List.mem_cons_of_mem _ hR
        · rw [if_neg hc]
          exact List.mem_cons_of_mem _ hR

theorem scanFiles_error_mem (folder : Folder) (now srcLoc : String)
    (files : List FileName) (name : FileName)
    (hmem : name ∈ files)
    (hlook : folder.lookup name = some .corrupt)
    (hcsv : isCsvFile name = true) :
    ({ level := .error, message := readErrorMsg name } : LogEvent)
      ∈ (scanFiles folder now srcLoc files).events := by
  induction files with
  | nil => simp at hmem
  | cons hd tl ih =>
    rcases List.mem_cons.mp hmem with h | h
    · subst h
      simp [scanFiles, hlook, hcsv]
    · have hR := ih h
      simp only [scanFiles]
      cases hl : folder.lookup hd with
      | none =>
        simp only [hl]
        exact List.mem_cons_of_mem _ hR
      | some c =>
        simp only [hl]
        by_cases hc : isCsvFile hd = true
        · cases c with
          | table d =>
            rw [if_pos hc]
            exact List.mem_cons_of_mem _ hR
          | corrupt =>
            rw [if_pos hc]
            exact List.mem_cons_of_mem _ hR
        · rw [if_neg hc]
          exact List.mem_cons_of_mem _ hR

theorem merge_state_of_writeFail (st : PipeState) (files? : Option (List FileName))
    (now srcLoc : String) :
    (merge_multiple_data_sources st files? now srcLoc false).1 = st := by
  simp only [merge_multiple_data_sources]
  split
  · rfl
  · rfl

theorem merge_finaldata_of_parsed (st : PipeState) (files : List FileName)
    (now srcLoc : String)
    (hne : (scanFiles st.inputFolder now srcLoc files).dfList ≠ []) :
    (merge_multiple_data_sources st (some files) now srcLoc true).1.finaldata =
      some { header := (concatFrames (scanFiles st.inputFolder now srcLoc files).dfList).header
             rows := dropDuplicates
               (concatFrames (scanFiles st.inputFolder now srcLoc files).dfList).rows } := by
  simp only [merge_multiple_data_sources]
  rw [if_neg (by simpa [List.isEmpty_iff] using hne), if_pos trivial]

theorem merge_ledger_of_parsed (st : PipeState) (files : List FileName)
    (now srcLoc : String)
    (hne : (scanFiles st.inputFolder now srcLoc files).dfList ≠ []) :
    (merge_multiple_data_sources st (some files) now srcLoc true).1.ledgerLines =
      some (st.ledgerLines.getD [] ++
        ((scanFiles st.inputFolder now srcLoc files).logList.map ledgerLine)) := by
  simp only [merge_multiple_data_sources]
  rw [if_neg (by simpa [List.isEmpty_iff] using hne), if_pos trivial]

theorem mem_merge_events (st : PipeState) (files : List FileName)
    (now srcLoc : String) (writeOk : Bool) (ev : LogEvent)
    (hmem : ev ∈ (scanFiles st.inputFolder now srcLoc files).events) :
    ev ∈ (merge_multiple_data_sources st (some files) now srcLoc writeOk).2 := by
  simp only [merge_multiple_data_sources]
  split
  · exact List.mem_append_left _ hmem
  · split
    · exact List.mem_append_left _ hmem
    · exact List.mem_append_left _ hmem

theorem mem_concatFrames_rows (dfs : List DataFrame) (df : DataFrame) (r : Row)
    (hdf : df ∈ dfs) (hr : r ∈ df.rows) : r ∈ (concatFrames dfs).rows := by
  simp only [concatFrames, List.mem_flatten]
  exact ⟨df.rows, List.mem_map_of_mem DataFrame.rows hdf, hr⟩

theorem merge_state_of_emptyScan (st : PipeState) (files : List FileName)
    (now srcLoc : String) (writeOk : Bool)
    (hempty : (scanFiles st.inputFolder now srcLoc files).dfList = []) :
    (merge_multiple_data_sources st (some files) now srcLoc writeOk).1 = st := by
  simp only [merge_multiple_data_sources]
  rw [if_pos (by simp [hempty])]

theorem rows_in_merged (st : PipeState) (files : List FileName)
    (now srcLoc : String) (name : FileName) (df : DataFrame) (r : Row)
    (hlook : st.inputFolder.lookup name = some (.table df))
    (hmem : name ∈ files) (hcsv : isCsvFile name = true) (hr : r ∈ df.rows) :
    r ∈ rowsOf (merge_multiple_data_sources st (some files) now srcLoc true).1.finaldata := by
  have hdf := scanFiles_dfList_mem st.inputFolder now srcLoc files name df hmem hlook hcsv
  have hne : (scanFiles st.inputFolder now srcLoc files).dfList ≠ [] := by
    intro h
    rw [h] at hdf
    exact absurd hdf (List.not_mem_nil df)
  rw [merge_finaldata_of_parsed st files now srcLoc hne]
  simp only [rowsOf]
  rw [mem_dropDuplicates]
  exact mem_concatFrames_rows _ df r hdf hr

/-! ## Concrete fixtures shared by witnesses and counterexamples -/

/-- The fixed schema of the canonical dataset, spec section 6. -/
def exHeader : List String :=
  ["lastmonth_activity", "lastyear_activity", "number_of_employees", "exited"]

/-- A sample data row of file a.csv. -/
def exRowA : Row := [1, 2, 3, 0]

/-- A sample data row of file b.csv. -/
def exRowB : Row := [4, 5, 6, 0]

/-- The parsed content of file a.csv. -/
def exDfA : DataFrame := { header := exHeader, rows := [exRowA] }

/-- The parsed content of file b.csv. -/
def exDfB : DataFrame := { header := exHeader, rows := [exRowB] }

/-- A concrete trained classifier artifact: predicts label 0 on every
input. -/
def exModel : Model := fun _ => 0

/-- An initial state: two fresh source files, nothing ingested yet. -/
def exFreshState : PipeState :=
  { inputFolder := [("a.csv", .table exDfA), ("b.csv", .table exDfB)]
    finaldata := none
    ledgerLines := none
    outputModel := { model := none, score := none }
    deployed := { model := none, score := none, ledgerLines := none } }

/-! ## Claims -/

/-- A first ingestion cycle over file a.csv only. -/
def c1Cycle1 : PipeState :=
  (merge_multiple_data_sources exFreshState (some ["a.csv"])
    "2025-01-01 00:00:00" "/input" true).1

/-- A second ingestion cycle over file b.csv only. -/
def c1Cycle2 : PipeState :=
  (merge_multiple_data_sources c1Cycle1 (some ["b.csv"])
    "2025-01-02 00:00:00" "/input" true).1

/-- C1 counterexample: after a second completed ingestion cycle the
ledger still holds its entry for a.csv, yet the row of a.csv is no longer
in the canonical dataset, because merge_multiple_data_sources overwrites
finaldata.csv with the new batch alone.  The canonical dataset is not a
superset of the rows of every ledgered file and it does shrink across
cycles, contradicting the claim. -/
theorem c1_counterexample :
    c1Cycle2.ledgerLines =
      some [ledgerLine { ingestTime := "2025-01-01 00:00:00", file := "a.csv",
                         sourceLocation := "/input", rowCount := 1 },
            ledgerLine { ingestTime := "2025-01-02 00:00:00", file := "b.csv",
                         sourceLocation := "/input", rowCount := 1 }] ∧
    exRowA ∈ exDfA.rows ∧
    exRowA ∉ rowsOf c1Cycle2.finaldata := by
  refine ⟨by decide, by decide, by decide⟩

/-- C1 (amended): the ledger-to-dataset containment holds only within a
single ingestion cycle: every row of every file parsed by one call to
merge_multiple_data_sources is present in the canonical dataset that this
call persists.  Rows of files ledgered in earlier cycles need not
survive, so the dataset does not grow monotonically. -/
theorem c1_batch_rows_in_dataset (st : PipeState) (files : List FileName)
    (now srcLoc : String) (name : FileName) (df : DataFrame) (r : Row)
    (hlook : st.inputFolder.lookup name = some (.table df))
    (hmem : name ∈ files) (hcsv : isCsvFile name = true) (hr : r ∈ df.rows) :
    r ∈ rowsOf (merge_multiple_data_sources st (some files) now srcLoc true).1.finaldata :=
  rows_in_merged st files now srcLoc name df r hlook hmem hcsv hr

/-- C1 witness: the amended theorem applied to the first concrete cycle. -/
theorem c1_witness :
    exRowA ∈ rowsOf (merge_multiple_data_sources exFreshState (some ["a.csv"])
      "2025-01-01 00:00:00" "/input" true).1.finaldata :=
  c1_batch_rows_in_dataset exFreshState ["a.csv"] "2025-01-01 00:00:00" "/input"
    "a.csv" exDfA exRowA (by decide) (by decide) (by decide) (by decide)

/-- A state with a previously persisted canonical dataset (the row of
a.csv) and a new source file b.csv. -/
def c2State : PipeState :=
  { inputFolder := [("b.csv", .table exDfB)]
    finaldata := some exDfA
    ledgerLines := some ["2025-01-01 00:00:00, a.csv, /input, 1"]
    outputModel := { model := none, score := none }
    deployed := { model := none, score := none, ledgerLines := none } }

/-- C2 counterexample: ingesting b.csv while the canonical dataset
already holds the row of a.csv persists only the rows of b.csv.  The
result differs from the deduplicated concatenation of the new frames with
the existing dataset that the claim describes, and the previously
ingested row is not retained. -/
theorem c2_counterexample :
    (merge_multiple_data_sources c2State (some ["b.csv"])
        "2025-01-02 00:00:00" "/input" true).1.finaldata =
      some { header := exHeader, rows := [exRowB] } ∧
    specMergedDataset [exDfB] c2State.finaldata =
      { header := exHeader, rows := [exRowB, exRowA] } ∧
    (merge_multiple_data_sources c2State (some ["b.csv"])
        "2025-01-02 00:00:00" "/input" true).1.finaldata ≠
      some (specMergedDataset [exDfB] c2State.finaldata) ∧
    exRowA ∉ rowsOf (merge_multiple_data_sources c2State (some ["b.csv"])
        "2025-01-02 00:00:00" "/input" true).1.finaldata := by
  refine ⟨by decide, by decide, by decide, by decide⟩

/-- C2 (amended): the persisted canonical dataset equals the
deduplicated concatenation of the newly parsed frames alone; the
previously existing canonical dataset is never read, so the result is
independent of it and previously ingested rows are not retained unless
re-ingested. -/
theorem c2_merge_ignores_existing (st : PipeState) (files : List FileName)
    (now srcLoc : String)
    (hne : (scanFiles st.inputFolder now srcLoc files).dfList ≠ []) :
    (merge_multiple_data_sources st (some files) now srcLoc true).1.finaldata =
      some (specMergedDataset (scanFiles st.inputFolder now srcLoc files).dfList none) ∧
    ∀ prior : Option DataFrame,
      (merge_multiple_data_sources { st with finaldata := prior }
          (some files) now srcLoc true).1.finaldata =
      (merge_multiple_data_sources st (some files) now srcLoc true).1.finaldata := by
  constructor
  · rw [merge_finaldata_of_parsed st files now srcLoc hne]
    simp [specMergedDataset, rowsOf]
  · intro prior
    rw [merge_finaldata_of_parsed st files now srcLoc hne,
      merge_finaldata_of_parsed { st with finaldata := prior } files now srcLoc hne]

/-- C2 witness: the amended theorem applied to the concrete state. -/
theorem c2_witness :
    (merge_multiple_data_sources c2State (some ["b.csv"])
        "2025-01-02 00:00:00" "/input" true).1.finaldata =
      some (specMergedDataset
        (scanFiles c2State.inputFolder "2025-01-02 00:00:00" "/input" ["b.csv"]).dfList none) :=
  (c2_merge_ignores_existing c2State ["b.csv"] "2025-01-02 00:00:00" "/input" (by decide)).1

/-- C6: the ingestion ledger is appended only when the canonical-dataset
write succeeds: with a failing write the ledger is unchanged, and any
call that changes the ledger is one in which the write succeeded. -/
theorem c6_ledger_append_after_write (st : PipeState)
    (files? : Option (List FileName)) (now srcLoc : String) :
    (merge_multiple_data_sources st files? now srcLoc false).1.ledgerLines =
      st.ledgerLines ∧
    ∀ writeOk : Bool,
      (merge_multiple_data_sources st files? now srcLoc writeOk).1.ledgerLines ≠
        st.ledgerLines →
      writeOk = true := by
  refine ⟨by rw [merge_state_of_writeFail], ?_⟩
  intro wk hne
  cases wk with
  | false => exact absurd (by rw [merge_state_of_writeFail]) hne
  | true => rfl

/-- C6 witness: on the fresh state, a failed write leaves the absent
ledger absent, while the run that does change the ledger is a successful
write. -/
theorem c6_witness :
    (merge_multiple_data_sources exFreshState (some ["a.csv"])
        "2025-01-01 00:00:00" "/input" false).1.ledgerLines =
      exFreshState.ledgerLines ∧
    (true = true) :=
  ⟨(c6_ledger_append_after_write exFreshState (some ["a.csv"])
      "2025-01-01 00:00:00" "/input").1,
   (c6_ledger_append_after_write exFreshState (some ["a.csv"])
      "2025-01-01 00:00:00" "/input").2 true (by decide)⟩

/-- A state in which a.csv is already ledgered and the input folder now
holds a.csv and b.csv, the scenario of the claim. -/
def c7State : PipeState :=
  { inputFolder := [("a.csv", .table exDfA), ("b.csv", .table exDfB)]
    finaldata := some exDfA
    ledgerLines := some ["2025-01-01 00:00:00, a.csv, /input, 1"]
    outputModel := { model := none, score := none }
    deployed := { model := none, score := none, ledgerLines := none } }

/-- C7: check_new_data returns every csv-typed file of the input folder
when no ledger file exists, and otherwise the csv-typed names present
minus the names recorded in the ledger, a set difference by name only. -/
theorem c7_new_files (st : PipeState) (n : FileName) :
    (st.ledgerLines = none →
      check_new_data st = .ok (csvNames st.inputFolder)) ∧
    (∀ lines ingested, st.ledgerLines = some lines →
      lines.mapM ledgerLineName = some ingested →
      check_new_data st =
        .ok ((csvNames st.inputFolder).filter (fun x => !(ingested.contains x))) ∧
      (n ∈ (csvNames st.inputFolder).filter (fun x => !(ingested.contains x)) ↔
        n ∈ csvNames st.inputFolder ∧ n ∉ ingested)) := by
  constructor
  · intro h
    simp [check_new_data, h]
  · intro lines ingested hl hp
    refine ⟨?_, ?_⟩
    · simp only [check_new_data, hl, hp]
    · simp [List.mem_filter]

/-- C7 witness: with a.csv ledgered and a.csv, b.csv present, the new
files are exactly b.csv; the ledger-line parse extracts the recorded
name a.csv from the real line format. -/
theorem c7_witness :
    check_new_data c7State =
      .ok ((csvNames c7State.inputFolder).filter (fun x => !((["a.csv"]).contains x))) ∧
    ("b.csv" ∈ (csvNames c7State.inputFolder).filter (fun x => !((["a.csv"]).contains x)) ↔
      "b.csv" ∈ csvNames c7State.inputFolder ∧ "b.csv" ∉ ["a.csv"]) :=
  (c7_new_files c7State "b.csv").2 ["2025-01-01 00:00:00, a.csv, /input, 1"]
    ["a.csv"] rfl (by decide)

/-- A state in which all three staging artifacts exist, ready to be
deployed. -/
def c5State : PipeState :=
  { inputFolder := []
    finaldata := some exDfA
    ledgerLines := some ["2025-01-01 00:00:00, a.csv, /input, 1"]
    outputModel := { model := some exModel, score := some (.record "t" 0) }
    deployed := { model := none, score := none, ledgerLines := none } }

/-- C5 counterexample: with all three artifacts present, the deploy copy
trace is score record first, model second, ingestion ledger last, not the
ledger-score-model order of the claim: the model is copied before the
ledger. -/
theorem c5_counterexample :
    (store_inference_pipe_artifacts c5State).2 =
      [DeployEvent.copied "latestscore.txt", DeployEvent.copied "trainedmodel.pkl",
       DeployEvent.copied "ingestedfiles.txt"] ∧
    (store_inference_pipe_artifacts c5State).2 ≠
      [DeployEvent.copied "ingestedfiles.txt", DeployEvent.copied "latestscore.txt",
       DeployEvent.copied "trainedmodel.pkl"] := by
  refine ⟨by decide, by decide⟩

/-- C5 (amended): in every deploy in which all three source artifacts
exist, they are copied in the order: score record first, model second,
ingestion ledger last; in particular the model is always copied before
the ledger. -/
theorem c5_copy_order (st : PipeState) (sc : ScoreContent) (m : Model)
    (lg : List String)
    (h1 : st.outputModel.score = some sc) (h2 : st.outputModel.model = some m)
    (h3 : st.ledgerLines = some lg) :
    (store_inference_pipe_artifacts st).2 =
      [DeployEvent.copied "latestscore.txt", DeployEvent.copied "trainedmodel.pkl",
       DeployEvent.copied "ingestedfiles.txt"] := by
  simp [store_inference_pipe_artifacts, h1, h2, h3]

/-- C5 witness: the amended order on the concrete fully staged state. -/
theorem c5_witness :
    (store_inference_pipe_artifacts c5State).2 =
      [DeployEvent.copied "latestscore.txt", DeployEvent.copied "trainedmodel.pkl",
       DeployEvent.copied "ingestedfiles.txt"] :=
  c5_copy_order c5State (.record "t" 0) exModel
    ["2025-01-01 00:00:00, a.csv, /input, 1"] rfl rfl rfl

/-- C10: the deploy step handles each absent source artifact by logging
a warning and leaving the corresponding deployed file unchanged, while
every present artifact is copied; the deployed slot can thus be updated
partially and no absence aborts the step. -/
theorem c10_partial_deploy (st : PipeState) :
    ((∀ sc, st.outputModel.score = some sc →
        (store_inference_pipe_artifacts st).1.deployed.score = some sc ∧
        DeployEvent.copied "latestscore.txt" ∈ (store_inference_pipe_artifacts st).2) ∧
     (st.outputModel.score = none →
        (store_inference_pipe_artifacts st).1.deployed.score = st.deployed.score ∧
        DeployEvent.warned "latestscore.txt" ∈ (store_inference_pipe_artifacts st).2 ∧
        DeployEvent.copied "latestscore.txt" ∉ (store_inference_pipe_artifacts st).2)) ∧
    ((∀ m, st.outputModel.model = some m →
        (store_inference_pipe_artifacts st).1.deployed.model = some m ∧
        DeployEvent.copied "trainedmodel.pkl" ∈ (store_inference_pipe_artifacts st).2) ∧
     (st.outputModel.model = none →
        (store_inference_pipe_artifacts st).1.deployed.model = st.deployed.model ∧
        DeployEvent.warned "trainedmodel.pkl" ∈ (store_inference_pipe_artifacts st).2 ∧
        DeployEvent.copied "trainedmodel.pkl" ∉ (store_inference_pipe_artifacts st).2)) ∧
    ((∀ ls, st.ledgerLines = some ls →
        (store_inference_pipe_artifacts st).1.deployed.ledgerLines = some ls ∧
        DeployEvent.copied "ingestedfiles.txt" ∈ (store_inference_pipe_artifacts st).2) ∧
     (st.ledgerLines = none →
        (store_inference_pipe_artifacts st).1.deployed.ledgerLines =
          st.deployed.ledgerLines ∧
        DeployEvent.warned "ingestedfiles.txt" ∈ (store_inference_pipe_artifacts st).2 ∧
        DeployEvent.copied "ingestedfiles.txt" ∉ (store_inference_pipe_artifacts st).2)) := by
  cases hsc : st.outputModel.score <;> cases hm : st.outputModel.model <;>
    cases hl : st.ledgerLines <;>
      simp [store_inference_pipe_artifacts, hsc, hm, hl]

/-- A state in which only the score record and the ledger exist in
staging; the model artifact is absent. -/
def c10State : PipeState :=
  { inputFolder := []
    finaldata := none
    ledgerLines := some ["2025-01-01 00:00:00, a.csv, /input, 1"]
    outputModel := { model := none, score := some (.record "t" 0) }
    deployed := { model := some exModel, score := none, ledgerLines := none } }

/-- C10 witness: on the concrete state the present score record is
copied while the absent model only logs a warning and the deployed model
is untouched. -/
theorem c10_witness :
    ((store_inference_pipe_artifacts c10State).1.deployed.score =
        some (.record "t" 0) ∧
      DeployEvent.copied "latestscore.txt" ∈ (store_inference_pipe_artifacts c10State).2) ∧
    ((store_inference_pipe_artifacts c10State).1.deployed.model =
        c10State.deployed.model ∧
      DeployEvent.warned "trainedmodel.pkl" ∈ (store_inference_pipe_artifacts c10State).2 ∧
      DeployEvent.copied "trainedmodel.pkl" ∉ (store_inference_pipe_artifacts c10State).2) :=
  ⟨(c10_partial_deploy c10State).1.1 (.record "t" 0) rfl,
   (c10_partial_deploy c10State).2.1.2 rfl⟩

/-- A state with a deployed model but no persisted score record in the
deployment slot. -/
def c3State : PipeState :=
  { inputFolder := []
    finaldata := some exDfA
    ledgerLines := none
    outputModel := { model := none, score := none }
    deployed := { model := some exModel, score := none, ledgerLines := none } }

/-- C3 counterexample: with no persisted score record in the deployed
slot, check_model_drift returns false, not true: the comparison
deployed_score is not None and new_score below it fails when the baseline
is absent, so no drift is declared and retraining does not proceed,
contradicting the claim. -/
theorem c3_counterexample :
    c3State.deployed.score = none ∧
    Except.map Prod.fst (check_model_drift c3State "2025-01-02 00:00:00") =
      .ok false := by
  refine ⟨rfl, by decide⟩

/-- C3 (amended): in every run of check_model_drift in which no
persisted score record exists in the deployed slot, no drift is declared
(the function returns false), regardless of the freshly computed score,
so the pipeline terminates without retraining. -/
theorem c3_no_baseline_no_drift (st : PipeState) (now : String) (m : Model)
    (df : DataFrame) (xs : List (List ℚ)) (y : List ℚ)
    (hscore : st.deployed.score = none)
    (hm : st.deployed.model = some m)
    (hd : st.finaldata = some df)
    (hX : extractX df = some xs)
    (hY : extractY df = some y) :
    Except.map Prod.fst (check_model_drift st now) = .ok false := by
  simp only [check_model_drift, readDeployedScore, hscore, score_model, hm, hd, hX, hY]
  rfl

/-- C3 witness: the amended theorem applied to the concrete state. -/
theorem c3_witness :
    Except.map Prod.fst (check_model_drift c3State "2025-01-02 00:00:00") =
      .ok false :=
  c3_no_baseline_no_drift c3State "2025-01-02 00:00:00" exModel exDfA
    [[1, 2, 3]] [0] rfl rfl rfl (by decide) (by decide)

/-- A full pipeline state for the drift-halt scenario: a.csv ledgered,
b.csv new, a deployed model with a persisted score record. -/
def c4MainState : PipeState :=
  { inputFolder := [("a.csv", .table exDfA), ("b.csv", .table exDfB)]
    finaldata := some exDfA
    ledgerLines := some ["2025-01-01 00:00:00, a.csv, /input, 1"]
    outputModel := { model := none, score := none }
    deployed := { model := some exModel, score := some (.record "2025-01-01 00:00:01" 0),
                  ledgerLines := none } }

/-- The state after the orchestrator of the scenario has ingested the
new file b.csv. -/
def c4St1 : PipeState :=
  (merge_multiple_data_sources c4MainState (some ["b.csv"])
    "2025-01-02 00:00:00" "/input" true).1

/-- The state after the scenario drift check: the fresh score record has
been written into the deployment slot. -/
def c4St2 : PipeState :=
  { c4St1 with deployed := { c4St1.deployed with
      score := some (.record "2025-01-02 00:00:00" 0) } }

/-- C4: when a deployed score record exists and parses, drift is
declared exactly when the fresh score is strictly below the deployed
score, and whenever the drift check of the orchestrator comes out false,
main returns after the drift stage: no retrain, deploy or report stage
executes. -/
theorem c4_strict_drift_rule (st : PipeState) (now tdep : String) (d : ℚ)
    (m : Model) (df : DataFrame) (xs : List (List ℚ)) (y : List ℚ)
    (st0 : PipeState) (trainer : List (List ℚ) → List ℚ → Model)
    (now0 srcLoc : String) (files : List FileName) (st2 : PipeState)
    (hscore : st.deployed.score = some (.record tdep d))
    (hm : st.deployed.model = some m)
    (hd : st.finaldata = some df)
    (hX : extractX df = some xs)
    (hY : extractY df = some y)
    (hnew : check_new_data st0 = .ok files)
    (hne : files ≠ [])
    (hdrift : check_model_drift
        (merge_multiple_data_sources st0 (some files) now0 srcLoc true).1 now0 =
      .ok (false, st2)) :
    Except.map Prod.fst (check_model_drift st now) =
      .ok (decide (f1_score y (xs.map m) < d)) ∧
    mainRun st0 trainer now0 srcLoc =
      .ok ([Stage.checkData, Stage.ingest, Stage.checkDrift], st2) := by
  constructor
  · simp only [check_model_drift, readDeployedScore, hscore, score_model, hm, hd, hX, hY]
    by_cases hlt : f1_score y (xs.map m) < d
    · simp [hlt, Except.map]
    · simp [hlt, Except.map]
  · simp only [mainRun, hnew]
    rw [if_neg (by simpa [List.isEmpty_iff] using hne)]
    simp only [hdrift]
    simp

/-- C4 witness: the concrete halt scenario, deployed score 0 and fresh
score 0: no drift, and main stops after the drift stage. -/
theorem c4_witness :
    Except.map Prod.fst (check_model_drift c4St1 "2025-01-02 00:00:00") =
      .ok (decide (f1_score [(0 : ℚ)]
        (([[4, 5, 6]] : List (List ℚ)).map exModel) < 0)) ∧
    mainRun c4MainState (fun _ _ => exModel) "2025-01-02 00:00:00" "/input" =
      .ok ([Stage.checkData, Stage.ingest, Stage.checkDrift], c4St2) :=
  c4_strict_drift_rule c4St1 "2025-01-02 00:00:00" "2025-01-01 00:00:01" 0
    exModel exDfB [[4, 5, 6]] [0]
    c4MainState (fun _ _ => exModel) "2025-01-02 00:00:00" "/input" ["b.csv"] c4St2
    rfl rfl rfl (by decide) (by decide) (by decide) (by decide) rfl

/-- A state with a deployed model, a persisted score record and a
canonical dataset, about to be re-scored. -/
def c9State : PipeState :=
  { inputFolder := []
    finaldata := some exDfA
    ledgerLines := none
    outputModel := { model := none, score := none }
    deployed := { model := some exModel, score := some (.record "2025-01-01 00:00:01" 0),
                  ledgerLines := none } }

/-- The state after the concrete no-drift run: the baseline record has
been replaced by the fresh one. -/
def c9State1 : PipeState :=
  { c9State with deployed := { c9State.deployed with
      score := some (.record "2025-01-02 00:00:00" 0) } }

/-- C9: every completed run of check_model_drift overwrites the deployed
slot score record with the freshly computed score and timestamp, whatever
boolean it returns, so the previous deployed baseline is not preserved
across a no-drift cycle. -/
theorem c9_fresh_score_overwrites (st : PipeState) (now : String) (m : Model)
    (df : DataFrame) (xs : List (List ℚ)) (y : List ℚ) (b : Bool) (st1 : PipeState)
    (hm : st.deployed.model = some m)
    (hd : st.finaldata = some df)
    (hX : extractX df = some xs)
    (hY : extractY df = some y)
    (hrun : check_model_drift st now = .ok (b, st1)) :
    st1.deployed.score = some (.record now (f1_score y (xs.map m))) := by
  simp only [check_model_drift, score_model, hm, hd, hX, hY] at hrun
  cases hsc : st.deployed.score with
  | none =>
    rw [hsc] at hrun
    simp only [readDeployedScore] at hrun
    cases hrun
    rfl
  | some sc =>
    cases sc with
    | record t s =>
      rw [hsc] at hrun
      simp only [readDeployedScore] at hrun
      by_cases hlt : f1_score y (xs.map m) < s
      · rw [if_pos hlt] at hrun
        cases hrun
        rfl
      · rw [if_neg hlt] at hrun
        cases hrun
        rfl
    | malformed c =>
      rw [hsc] at hrun
      simp only [readDeployedScore] at hrun
      cases hrun

/-- C9 witness: the concrete no-drift run replaces the baseline record
with the fresh timestamped score. -/
theorem c9_witness :
    c9State1.deployed.score =
      some (.record "2025-01-02 00:00:00"
        (f1_score [(0 : ℚ)] (([[1, 2, 3]] : List (List ℚ)).map exModel))) :=
  c9_fresh_score_overwrites c9State "2025-01-02 00:00:00" exModel exDfA
    [[1, 2, 3]] [0] false c9State1 rfl rfl (by decide) (by decide) rfl

/-- A state whose input folder holds a corrupt candidate bad.csv next to
the valid b.csv. -/
def c8State : PipeState :=
  { inputFolder := [("bad.csv", .corrupt), ("b.csv", .table exDfB)]
    finaldata := none
    ledgerLines := none
    outputModel := { model := none, score := none }
    deployed := { model := none, score := none, ledgerLines := none } }

/-- C8 counterexample: a candidate file that fails to parse is logged at
error level, not warning level: the full event trace of the batch holds
an error record for bad.csv and no warning record at all, while b.csv is
still ingested and ledgered. -/
theorem c8_counterexample :
    (merge_multiple_data_sources c8State (some ["bad.csv", "b.csv"])
        "2025-01-01 00:00:00" "/input" true).2 =
      [{ level := .error, message := readErrorMsg "bad.csv" },
       { level := .info, message := "File to ingest: b.csv" },
       { level := .info, message := "Saved final data version to finaldata.csv" }] ∧
    ({ level := .warning, message := missingMsg "bad.csv" } : LogEvent) ∉
      (merge_multiple_data_sources c8State (some ["bad.csv", "b.csv"])
        "2025-01-01 00:00:00" "/input" true).2 ∧
    (merge_multiple_data_sources c8State (some ["bad.csv", "b.csv"])
        "2025-01-01 00:00:00" "/input" true).1.ledgerLines =
      some [ledgerLine { ingestTime := "2025-01-01 00:00:00", file := "b.csv",
                         sourceLocation := "/input", rowCount := 1 }] ∧
    exRowB ∈ rowsOf (merge_multiple_data_sources c8State (some ["bad.csv", "b.csv"])
        "2025-01-01 00:00:00" "/input" true).1.finaldata := by
  refine ⟨by decide, by decide, by decide, by decide⟩

/-- C8 (amended): a candidate file that is missing or not a .csv is
skipped with a logged warning, and one that fails to parse is skipped
with a logged error; either way the batch is not aborted: no ledger
record is produced for the skipped file, every other parseable file of
the batch still gets its ledger record, and its rows reach the persisted
canonical dataset.  The appended ledger lines are exactly the serialized
records of the scan. -/
theorem c8_skip_semantics (st : PipeState) (files : List FileName)
    (now srcLoc : String) :
    (∀ name, name ∈ files →
      st.inputFolder.lookup name = none ∨ isCsvFile name = false →
      ({ level := .warning, message := missingMsg name } : LogEvent) ∈
        (merge_multiple_data_sources st (some files) now srcLoc true).2 ∧
      ∀ e ∈ (scanFiles st.inputFolder now srcLoc files).logList, e.file ≠ name) ∧
    (∀ name, name ∈ files →
      st.inputFolder.lookup name = some .corrupt → isCsvFile name = true →
      ({ level := .error, message := readErrorMsg name } : LogEvent) ∈
        (merge_multiple_data_sources st (some files) now srcLoc true).2 ∧
      ∀ e ∈ (scanFiles st.inputFolder now srcLoc files).logList, e.file ≠ name) ∧
    (∀ name df, name ∈ files →
      st.inputFolder.lookup name = some (.table df) → isCsvFile name = true →
      ({ ingestTime := now, file := name, sourceLocation := srcLoc,
         rowCount := df.rows.length } : LedgerEntry) ∈
        (scanFiles st.inputFolder now srcLoc files).logList ∧
      ∀ r ∈ df.rows,
        r ∈ rowsOf (merge_multiple_data_sources st (some files) now srcLoc true).1.finaldata) ∧
    ((merge_multiple_data_sources st (some files) now srcLoc true).1.ledgerLines =
        st.ledgerLines ∨
     (merge_multiple_data_sources st (some files) now srcLoc true).1.ledgerLines =
        some (st.ledgerLines.getD [] ++
          ((scanFiles st.inputFolder now srcLoc files).logList.map ledgerLine))) := by
  refine ⟨?_, ?_, ?_, ?_⟩
  · intro name hmem hskip
    refine ⟨mem_merge_events st files now srcLoc true _
      (scanFiles_warning_mem st.inputFolder now srcLoc files name hmem hskip), ?_⟩
    intro e he heq
    rcases scanFiles_logList_sound st.inputFolder now srcLoc files e he with
      ⟨df, hlook, _, hcsv, _⟩
    rw [heq] at hlook hcsv
    rcases hskip with h | h
    · rw [h] at hlook
      exact Option.noConfusion hlook
    · rw [h] at hcsv
      exact Bool.noConfusion hcsv
  · intro name hmem hlook hcsv
    refine ⟨mem_merge_events st files now srcLoc true _
      (scanFiles_error_mem st.inputFolder now srcLoc files name hmem hlook hcsv), ?_⟩
    intro e he heq
    rcases scanFiles_logList_sound st.inputFolder now srcLoc files e he with
      ⟨df, hlook2, _, _, _⟩
    rw [heq, hlook] at hlook2
    exact FileContent.noConfusion (Option.some.inj hlook2)
  · intro name df hmem hlook hcsv
    refine ⟨scanFiles_logList_mem st.inputFolder now srcLoc files name df hmem hlook hcsv, ?_⟩
    intro r hr
    exact rows_in_merged st files now srcLoc name df r hlook hmem hcsv hr
  · by_cases hempty : (scanFiles st.inputFolder now srcLoc files).dfList = []
    · exact Or.inl (by rw [merge_state_of_emptyScan st files now srcLoc true hempty])
    · exact Or.inr (merge_ledger_of_parsed st files now srcLoc hempty)

/-- C8 witness: on the concrete corrupt-plus-valid batch, the corrupt
file produces the error event and the valid file produces its ledger
record. -/
theorem c8_witness :
    ({ level := .error, message := readErrorMsg "bad.csv" } : LogEvent) ∈
      (merge_multiple_data_sources c8State (some ["bad.csv", "b.csv"])
        "2025-01-01 00:00:00" "/input" true).2 ∧
    ({ ingestTime := "2025-01-01 00:00:00", file := "b.csv",
       sourceLocation := "/input", rowCount := 1 } : LedgerEntry) ∈
      (scanFiles c8State.inputFolder "2025-01-01 00:00:00" "/input"
        ["bad.csv", "b.csv"]).logList :=
  ⟨((c8_skip_semantics c8State ["bad.csv", "b.csv"] "2025-01-01 00:00:00" "/input").2.1
      "bad.csv" (by decide) rfl (by decide)).1,
   ((c8_skip_semantics c8State ["bad.csv", "b.csv"] "2025-01-01 00:00:00" "/input").2.2.1
      "b.csv" exDfB (by decide) rfl (by decide)).1⟩

end RiskPipeline
